import Mathlib

/-!
Shallow embedding of `src/os_driver_nodelet.cpp` (the `OusterDriver` nodelet of
the ouster-ros driver): the configuration logic of `create_publishers`, the
three spatial output callbacks (point cloud, laser scan, image), and the packet
dispatch entry points `on_lidar_packet_msg` / `on_imu_packet_msg`.

Pieces of the repository that the nodelet calls but that are not part of the
given source file (the token parser declared in `os_ros.h`, the packet handlers
and the scan processors) are modelled from the specification; each such
definition carries a doc comment starting with `Modelled from the spec:`.
-/

namespace OusterRos

/-- The lidar channel fields used by the image processor's topic maps
(`sensor::ChanField` values appearing in `os_driver_nodelet.cpp`). -/
inductive ChanField where
  | RANGE
  | SIGNAL
  | REFLECTIVITY
  | NEAR_IR
  | RANGE2
  | SIGNAL2
  | REFLECTIVITY2
  deriving DecidableEq, Repr

/-- The private node parameters read by `create_publishers`, with the default
value each `pnh.param(name, default)` call supplies when the parameter is
unset.  The UTC/TAI offset is a `double` in the source; we model it as a
rational, which is exact for every value the claims exercise. -/
structure Params where
  proc_mask : String := "IMU|IMG|PCL|SCAN"
  timestamp_mode : String := ""
  ptp_utc_tai_offset : ℚ := -37
  min_valid_columns_in_scan : Int := 0
  point_type : String := "original"
  scan_ring : Int := 0

/-- The parts of `sensor::sensor_info` that `create_publishers` consumes:
`get_n_returns(info)`, `get_beams_count(info)` and the check of
`info.format.udp_profile_lidar` against `PROFILE_RNG15_RFL8_NIR8`. -/
structure SensorInfo where
  num_returns : Nat
  beams_count : Nat
  udp_profile_rng15_rfl8_nir8 : Bool

/-- The four processor tokens recognized by `create_publishers`. -/
def recognized_tokens : List String := ["IMU", "PCL", "SCAN", "IMG"]

/-- Split a character list at every occurrence of the delimiter. -/
def split_on_delim (delim : Char) : List Char → List (List Char)
  | [] => [[]]
  | c :: cs =>
    if c = delim then [] :: split_on_delim delim cs
    else
      match split_on_delim delim cs with
      | [] => [[c]]
      | t :: ts => (c :: t) :: ts

/-- Modelled from the spec: `impl::parse_tokens` is declared in `os_ros.h`,
which is not part of the given source.  §4.1: given a delimiter-separated token
string and a fixed delimiter character, produce the recognized tokens present
(case-sensitive exact match against IMU, PCL, SCAN, IMG); unrecognized tokens
are ignored. -/
def parse_tokens (s : String) (delim : Char) : List String :=
  ((split_on_delim delim s.data).map (fun cs => String.mk cs)).filter
    (fun t => recognized_tokens.contains t)

/-- Modelled from the spec: `impl::check_token` is declared in `os_ros.h`,
which is not part of the given source.  §4.1: membership test
`enabled(token) → bool` on the resolved token set. -/
def check_token (tokens : List String) (token : String) : Bool :=
  tokens.contains token

/-- Truncation toward zero on rationals: the semantics of the C++
`static_cast<int64_t>` applied to an in-range real value, as in
`static_cast<int64_t>(ptp_utc_tai_offset * 1e+9)`. -/
def truncQ (q : ℚ) : Int :=
  if 0 ≤ q then ⌊q⌋ else ⌈q⌉

/-- An observable action of the driver: a publish call on one of its
publishers, or the incomplete-cloud warning emitted by the point cloud
callback. -/
inductive Event (α : Type) where
  | publishCloud (idx : Nat) (msg : α)
  | publishScan (idx : Nat) (msg : α)
  | publishImage (field : ChanField) (msg : α)
  | publishImu (msg : α)
  | warnIncompleteCloud (got expected : Int)
  deriving DecidableEq, Repr

/-- Whether an event is a publish call on some sink (as opposed to a warning). -/
def Event.isPublish {α : Type} : Event α → Bool
  | .warnIncompleteCloud _ _ => false
  | _ => true

/-- `PointCloudProcessor_OutputType`: the per-frame output handed to the point
cloud callback, with its valid column count and one message per return. -/
structure PointCloudOutput (α : Type) where
  num_valid_columns : Int
  pc_msgs : List α

/-- `LaserScanProcessor::OutputType`: the per-frame output handed to the laser
scan callback. -/
structure LaserScanOutput (α : Type) where
  num_valid_columns : Int
  scan_msgs : List α

/-- `ImageProcessor::OutputType`: the per-frame output handed to the image
callback, one message per channel field. -/
structure ImageOutput (α : Type) where
  num_valid_columns : Int
  image_msgs : List (ChanField × α)

/-- The point cloud output callback installed by `create_publishers`
(lines 85-95): drop the frame with a warning when
`num_valid_columns < min_valid_columns_in_scan`, otherwise publish
`pc_msgs[i]` on `lidar_pubs[i]` for each `i`. -/
def point_cloud_output_callback {α : Type} (min_valid_columns_in_scan : Int)
    (data : PointCloudOutput α) : List (Event α) :=
  if data.num_valid_columns < min_valid_columns_in_scan then
    [Event.warnIncompleteCloud data.num_valid_columns min_valid_columns_in_scan]
  else
    data.pc_msgs.enum.map (fun q => Event.publishCloud q.1 q.2)

/-- The laser scan output callback installed by `create_publishers`
(lines 127-133): silently drop the frame when below threshold, otherwise
publish `scan_msgs[i]` on `scan_pubs[i]` for each `i`. -/
def laser_scan_output_callback {α : Type} (min_valid_columns_in_scan : Int)
    (data : LaserScanOutput α) : List (Event α) :=
  if data.num_valid_columns < min_valid_columns_in_scan then
    []
  else
    data.scan_msgs.enum.map (fun q => Event.publishScan q.1 q.2)

/-- The image output callback installed by `create_publishers`
(lines 163-170): silently drop the frame when below threshold, otherwise
publish each entry of `image_msgs` on the image publisher of its channel
field. -/
def image_output_callback {α : Type} (min_valid_columns_in_scan : Int)
    (data : ImageOutput α) : List (Event α) :=
  if data.num_valid_columns < min_valid_columns_in_scan then
    []
  else
    data.image_msgs.map (fun q => Event.publishImage q.1 q.2)

/-- The kinds of `LidarScanProcessor` that `create_publishers` can push onto
its `processors` vector, in source order. -/
inductive ProcKind where
  | pcl
  | scan
  | img
  deriving DecidableEq, Repr

/-- `channel_field_topic_map_1`: the image topic map for single-return
sensors. -/
def channel_field_topic_map_1 : List (ChanField × String) :=
  [(ChanField.RANGE, "range_image"),
   (ChanField.SIGNAL, "signal_image"),
   (ChanField.REFLECTIVITY, "reflec_image"),
   (ChanField.NEAR_IR, "nearir_image")]

/-- `channel_field_topic_map_2`: the image topic map for dual-return
sensors. -/
def channel_field_topic_map_2 : List (ChanField × String) :=
  [(ChanField.RANGE, "range_image"),
   (ChanField.SIGNAL, "signal_image"),
   (ChanField.REFLECTIVITY, "reflec_image"),
   (ChanField.NEAR_IR, "nearir_image"),
   (ChanField.RANGE2, "range_image2"),
   (ChanField.SIGNAL2, "signal_image2"),
   (ChanField.REFLECTIVITY2, "reflec_image2")]

/-- The configuration-time warnings `create_publishers` can log. -/
inductive ConfigWarning where
  | pointTypeIncompatible (point_type : String)
  | scanRingClamped (beams_count clamped : Int)
  deriving DecidableEq, Repr

/-- Whether a configuration warning is the scan-ring clamping warning. -/
def ConfigWarning.isScanRingClamped : ConfigWarning → Bool
  | .scanRingClamped _ _ => true
  | _ => false

/-- The clamp applied to the `scan_ring` parameter (line 117):
`std::min(std::max(scan_ring, 0), beams_count - 1)`. -/
def scan_ring_clamp (requested beams_count : Int) : Int :=
  min (max requested 0) (beams_count - 1)

/-- The outcome of `create_publishers`: which handlers were constructed (and
with which UTC/TAI offset, in nanoseconds), how many publishers of each kind
exist, which processors were pushed, the clamped scan ring, the captured
threshold, and the configuration warnings logged. -/
structure DriverConfig where
  imu_handler_offset_ns : Option Int
  lidar_pubs_count : Nat
  scan_pubs_count : Nat
  image_pubs : List (ChanField × String)
  processors : List ProcKind
  scan_ring_used : Option Int
  min_valid_columns_in_scan : Int
  config_warnings : List ConfigWarning
  lidar_handler_offset_ns : Option Int
  deriving Repr

/-- `OusterDriver::create_publishers` (lines 52-178), as a pure function of
the resolved parameters and the sensor metadata.  The predicate
`point_type_requires_intensity` abstracts
`PointCloudProcessorFactory::point_type_requires_intensity`, whose definition
is not part of the given source; it is passed in as an argument. -/
def create_publishers (point_type_requires_intensity : String → Bool)
    (p : Params) (info : SensorInfo) : DriverConfig :=
  let tokens := parse_tokens p.proc_mask '|'
  let offset_ns := truncQ (p.ptp_utc_tai_offset * 1000000000)
  let imu_on := check_token tokens "IMU"
  let num_returns := info.num_returns
  let pcl_on := check_token tokens "PCL"
  let scan_on := check_token tokens "SCAN"
  let img_on := check_token tokens "IMG"
  let pcl_warnings :=
    if pcl_on then
      if point_type_requires_intensity p.point_type
          && info.udp_profile_rng15_rfl8_nir8 then
        [ConfigWarning.pointTypeIncompatible p.point_type]
      else []
    else []
  let beams_count : Int := info.beams_count
  let scan_ring := scan_ring_clamp p.scan_ring beams_count
  let scan_warnings :=
    if scan_on then
      if scan_ring = p.scan_ring then []
      else [ConfigWarning.scanRingClamped beams_count scan_ring]
    else []
  { imu_handler_offset_ns := if imu_on then some offset_ns else none
    lidar_pubs_count := if pcl_on then num_returns else 0
    scan_pubs_count := if scan_on then num_returns else 0
    image_pubs :=
      if img_on then
        if num_returns = 1 then channel_field_topic_map_1
        else channel_field_topic_map_2
      else []
    processors :=
      (if pcl_on then [ProcKind.pcl] else [])
        ++ (if scan_on then [ProcKind.scan] else [])
        ++ (if img_on then [ProcKind.img] else [])
    scan_ring_used := if scan_on then some scan_ring else none
    min_valid_columns_in_scan := p.min_valid_columns_in_scan
    config_warnings := pcl_warnings ++ scan_warnings
    lidar_handler_offset_ns :=
      if pcl_on || scan_on || img_on then some offset_ns else none }

/-- Modelled from the spec: `LidarPacketHandler::create_handler` is not part
of the given source.  §4.2: on receipt of a lidar packet the dispatcher
invokes every constructed spatial processor, passing the same packet.  This
returns the invocation log: which processor kinds receive the packet. -/
def dispatch_lidar_packet (procs : List ProcKind) (pkt : List Nat) :
    List (ProcKind × List Nat) :=
  procs.map (fun k => (k, pkt))

/-- The mutable handler state of `OusterDriver`: the two `std::function`
members `imu_packet_handler` and `lidar_packet_handler` (empty when never
assigned, i.e. before `create_publishers` ran or when the matching token was
absent), plus the opaque internal state of the lidar packet handler. -/
structure Driver (σ α : Type) where
  imu_packet_handler : Option (List Nat → α)
  lidar_packet_handler : Option (σ → List Nat → σ × List (Event α))
  lidar_state : σ

/-- `OusterDriver::on_lidar_packet_msg` (lines 180-182): invoke the lidar
packet handler when one is set, otherwise do nothing. -/
def on_lidar_packet_msg {σ α : Type} (d : Driver σ α)
    (raw_lidar_packet : List Nat) : Driver σ α × List (Event α) :=
  match d.lidar_packet_handler with
  | some handler =>
      let r := handler d.lidar_state raw_lidar_packet
      ({ d with lidar_state := r.1 }, r.2)
  | none => (d, [])

/-- `OusterDriver::on_imu_packet_msg` (lines 184-187): when an IMU handler is
set, publish its output on the imu publisher; otherwise do nothing. -/
def on_imu_packet_msg {σ α : Type} (d : Driver σ α)
    (raw_imu_packet : List Nat) : Driver σ α × List (Event α) :=
  match d.imu_packet_handler with
  | some handler => (d, [Event.publishImu (handler raw_imu_packet)])
  | none => (d, [])

/-- The timestamp modes of §4.6. -/
inductive TimestampMode where
  | passthrough
  | hostArrival
  | taiCorrected
  deriving DecidableEq, Repr

/-- Modelled from the spec: the Timestamp Corrector lives inside the packet
handlers, which are not part of the given source.  §4.6:
sensor-time passthrough, host-arrival-time substitution, or TAI-to-UTC
correction which subtracts the configured offset (in nanoseconds) from the
raw hardware timestamp. -/
def correct_timestamp (mode : TimestampMode)
    (host_time raw_timestamp utc_tai_offset_ns : Int) : Int :=
  match mode with
  | .passthrough => raw_timestamp
  | .hostArrival => host_time
  | .taiCorrected => raw_timestamp - utc_tai_offset_ns

/-- Extract the sink index of a point cloud publish event, if any. -/
def cloudPublishIdx {α : Type} : Event α → Option Nat
  | .publishCloud i _ => some i
  | _ => none

/-- Extract the sink index of a laser scan publish event, if any. -/
def scanPublishIdx {α : Type} : Event α → Option Nat
  | .publishScan i _ => some i
  | _ => none

theorem filterMap_cloudIdx_map {α : Type} (l : List (Nat × α)) :
    (l.map (fun q => Event.publishCloud q.1 q.2)).filterMap cloudPublishIdx
      = l.map Prod.fst := by
  induction l with
  | nil => rfl
  | cons h t ih => simp only [List.map_cons, List.filterMap_cons, cloudPublishIdx, ih]

theorem filterMap_scanIdx_map {α : Type} (l : List (Nat × α)) :
    (l.map (fun q => Event.publishScan q.1 q.2)).filterMap scanPublishIdx
      = l.map Prod.fst := by
  induction l with
  | nil => rfl
  | cons h t ih => simp only [List.map_cons, List.filterMap_cons, scanPublishIdx, ih]

theorem point_cloud_callback_pass {α : Type} (t : Int) (dc : PointCloudOutput α)
    (h : t ≤ dc.num_valid_columns) :
    point_cloud_output_callback t dc
      = dc.pc_msgs.enum.map (fun q => Event.publishCloud q.1 q.2) := by
  simp only [point_cloud_output_callback, if_neg (not_lt.mpr h)]

theorem laser_scan_callback_pass {α : Type} (t : Int) (ds : LaserScanOutput α)
    (h : t ≤ ds.num_valid_columns) :
    laser_scan_output_callback t ds
      = ds.scan_msgs.enum.map (fun q => Event.publishScan q.1 q.2) := by
  simp only [laser_scan_output_callback, if_neg (not_lt.mpr h)]

theorem image_callback_pass {α : Type} (t : Int) (di : ImageOutput α)
    (h : t ≤ di.num_valid_columns) :
    image_output_callback t di
      = di.image_msgs.map (fun q => Event.publishImage q.1 q.2) := by
  simp only [image_output_callback, if_neg (not_lt.mpr h)]

/-- C1: a spatial frame whose valid column count is below the threshold is
dropped — its callback performs no sink publish — while a frame at or above
the threshold is delivered to its sinks exactly once: the callback output is
exactly one publish event per sub-message, in order. -/
theorem valid_column_filter {α : Type} (t : Int)
    (dc : PointCloudOutput α) (ds : LaserScanOutput α) (di : ImageOutput α) :
    (dc.num_valid_columns < t →
      ∀ e ∈ point_cloud_output_callback t dc, e.isPublish = false) ∧
    (t ≤ dc.num_valid_columns →
      point_cloud_output_callback t dc
        = dc.pc_msgs.enum.map (fun q => Event.publishCloud q.1 q.2)) ∧
    (ds.num_valid_columns < t → laser_scan_output_callback t ds = []) ∧
    (t ≤ ds.num_valid_columns →
      laser_scan_output_callback t ds
        = ds.scan_msgs.enum.map (fun q => Event.publishScan q.1 q.2)) ∧
    (di.num_valid_columns < t → image_output_callback t di = []) ∧
    (t ≤ di.num_valid_columns →
      image_output_callback t di
        = di.image_msgs.map (fun q => Event.publishImage q.1 q.2)) := by
  refine ⟨?_, ?_, ?_, ?_, ?_, ?_⟩
  · intro h e he
    simp only [point_cloud_output_callback, if_pos h, List.mem_singleton] at he
    subst he; rfl
  · exact fun h => point_cloud_callback_pass t dc h
  · intro h; simp only [laser_scan_output_callback, if_pos h]
  · exact fun h => laser_scan_callback_pass t ds h
  · intro h; simp only [image_output_callback, if_pos h]
  · exact fun h => image_callback_pass t di h

/-- C1 witness: at threshold 1 a cloud frame with 0 valid columns yields no
publish event; at threshold 0 a scan frame with 2 messages is published once
per sub-message. -/
theorem valid_column_filter_witness :
    (∀ e ∈ point_cloud_output_callback 1
        ({ num_valid_columns := 0, pc_msgs := [7] } : PointCloudOutput Nat),
      e.isPublish = false) ∧
    laser_scan_output_callback 0
        ({ num_valid_columns := 2, scan_msgs := [5, 6] } : LaserScanOutput Nat)
      = [Event.publishScan 0 5, Event.publishScan 1 6] :=
  ⟨(valid_column_filter 1 ⟨0, [7]⟩ (⟨0, []⟩ : LaserScanOutput Nat)
      (⟨0, []⟩ : ImageOutput Nat)).1 (by decide),
   ((valid_column_filter 0 (⟨0, []⟩ : PointCloudOutput Nat)
      (⟨2, [5, 6]⟩ : LaserScanOutput Nat)
      (⟨0, []⟩ : ImageOutput Nat)).2.2.2.1 (by decide)).trans (by rfl)⟩

/-- C3: the threshold parameter defaults to 0 and the filter compares with a
strict less-than, so under the default configuration every frame with a
non-negative valid column count — in particular any non-empty frame — passes
the filter of all three variants and is forwarded. -/
theorem default_threshold_accepts {α : Type}
    (rqi : String → Bool) (info : SensorInfo)
    (dc : PointCloudOutput α) (hc : 0 ≤ dc.num_valid_columns) :
    ({} : Params).min_valid_columns_in_scan = 0 ∧
    (create_publishers rqi {} info).min_valid_columns_in_scan = 0 ∧
    point_cloud_output_callback 0 dc
      = dc.pc_msgs.enum.map (fun q => Event.publishCloud q.1 q.2) ∧
    (∀ (ds : LaserScanOutput α), 0 ≤ ds.num_valid_columns →
      laser_scan_output_callback 0 ds
        = ds.scan_msgs.enum.map (fun q => Event.publishScan q.1 q.2)) ∧
    (∀ (di : ImageOutput α), 0 ≤ di.num_valid_columns →
      image_output_callback 0 di
        = di.image_msgs.map (fun q => Event.publishImage q.1 q.2)) := by
  refine ⟨rfl, rfl, ?_, ?_, ?_⟩
  · exact point_cloud_callback_pass 0 dc hc
  · exact fun ds hs => laser_scan_callback_pass 0 ds hs
  · exact fun di hi => image_callback_pass 0 di hi

/-- C3 witness: under the default configuration a concrete single-column cloud
frame is forwarded. -/
theorem default_threshold_accepts_witness :
    ({} : Params).min_valid_columns_in_scan = 0 ∧
    point_cloud_output_callback 0
        ({ num_valid_columns := 1, pc_msgs := [9] } : PointCloudOutput Nat)
      = [Event.publishCloud 0 9] := by
  have h := default_threshold_accepts (fun _ => false)
    ({ num_returns := 1, beams_count := 64, udp_profile_rng15_rfl8_nir8 := false })
    (⟨1, [9]⟩ : PointCloudOutput Nat) (by decide)
  exact ⟨h.1, h.2.2.1.trans (by rfl)⟩

/-- C9: with no lidar packet handler constructed, delivering a lidar packet is
a no-op, and with no IMU handler constructed, delivering an inertial packet is
a no-op: the driver state is unchanged and no event is produced. -/
theorem no_handler_packet_noop {σ α : Type} (d : Driver σ α) (pkt : List Nat) :
    (d.lidar_packet_handler = none → on_lidar_packet_msg d pkt = (d, [])) ∧
    (d.imu_packet_handler = none → on_imu_packet_msg d pkt = (d, [])) := by
  constructor
  · intro h; simp only [on_lidar_packet_msg, h]
  · intro h; simp only [on_imu_packet_msg, h]

/-- C9 witness: a concrete driver with both handlers unset ignores a lidar
packet and an inertial packet. -/
theorem no_handler_packet_noop_witness :
    on_lidar_packet_msg
        ({ imu_packet_handler := none, lidar_packet_handler := none,
           lidar_state := 0 } : Driver Nat Nat) [1, 2]
      = ({ imu_packet_handler := none, lidar_packet_handler := none,
           lidar_state := 0 }, []) ∧
    on_imu_packet_msg
        ({ imu_packet_handler := none, lidar_packet_handler := none,
           lidar_state := 0 } : Driver Nat Nat) [3]
      = ({ imu_packet_handler := none, lidar_packet_handler := none,
           lidar_state := 0 }, []) :=
  ⟨(no_handler_packet_noop _ [1, 2]).1 rfl,
   (no_handler_packet_noop _ [3]).2 rfl⟩

/-- C10: when an IMU handler is constructed, each delivered inertial packet
produces exactly one publish call on the imu sink, carrying the handler's
output, with no validity filtering, no error branch and no state change. -/
theorem imu_packet_published_once {σ α : Type} (d : Driver σ α)
    (pkt : List Nat) (handler : List Nat → α)
    (h : d.imu_packet_handler = some handler) :
    on_imu_packet_msg d pkt = (d, [Event.publishImu (handler pkt)]) := by
  simp only [on_imu_packet_msg, h]

/-- C10 witness: a concrete driver whose IMU handler returns the packet length
publishes exactly one imu message for a 3-byte packet. -/
theorem imu_packet_published_once_witness :
    on_imu_packet_msg
        ({ imu_packet_handler := some List.length, lidar_packet_handler := none,
           lidar_state := 0 } : Driver Nat Nat) [1, 2, 3]
      = ({ imu_packet_handler := some List.length, lidar_packet_handler := none,
           lidar_state := 0 }, [Event.publishImu 3]) :=
  imu_packet_published_once _ [1, 2, 3] List.length rfl

theorem create_publishers_imu_offset (rqi : String → Bool) (p : Params)
    (info : SensorInfo) :
    (create_publishers rqi p info).imu_handler_offset_ns
      = if check_token (parse_tokens p.proc_mask '|') "IMU"
        then some (truncQ (p.ptp_utc_tai_offset * 1000000000)) else none := rfl

theorem create_publishers_lidar_offset (rqi : String → Bool) (p : Params)
    (info : SensorInfo) :
    (create_publishers rqi p info).lidar_handler_offset_ns
      = if check_token (parse_tokens p.proc_mask '|') "PCL"
          || check_token (parse_tokens p.proc_mask '|') "SCAN"
          || check_token (parse_tokens p.proc_mask '|') "IMG"
        then some (truncQ (p.ptp_utc_tai_offset * 1000000000)) else none := rfl

theorem create_publishers_lidar_pubs (rqi : String → Bool) (p : Params)
    (info : SensorInfo) :
    (create_publishers rqi p info).lidar_pubs_count
      = if check_token (parse_tokens p.proc_mask '|') "PCL"
        then info.num_returns else 0 := rfl

theorem create_publishers_scan_pubs (rqi : String → Bool) (p : Params)
    (info : SensorInfo) :
    (create_publishers rqi p info).scan_pubs_count
      = if check_token (parse_tokens p.proc_mask '|') "SCAN"
        then info.num_returns else 0 := rfl

theorem create_publishers_image_pubs (rqi : String → Bool) (p : Params)
    (info : SensorInfo) :
    (create_publishers rqi p info).image_pubs
      = if check_token (parse_tokens p.proc_mask '|') "IMG" then
          if info.num_returns = 1 then channel_field_topic_map_1
          else channel_field_topic_map_2
        else [] := rfl

theorem create_publishers_processors (rqi : String → Bool) (p : Params)
    (info : SensorInfo) :
    (create_publishers rqi p info).processors
      = (if check_token (parse_tokens p.proc_mask '|') "PCL"
          then [ProcKind.pcl] else [])
        ++ (if check_token (parse_tokens p.proc_mask '|') "SCAN"
            then [ProcKind.scan] else [])
        ++ (if check_token (parse_tokens p.proc_mask '|') "IMG"
            then [ProcKind.img] else []) := rfl

theorem create_publishers_scan_ring (rqi : String → Bool) (p : Params)
    (info : SensorInfo) :
    (create_publishers rqi p info).scan_ring_used
      = if check_token (parse_tokens p.proc_mask '|') "SCAN"
        then some (scan_ring_clamp p.scan_ring (info.beams_count : Int))
        else none := rfl

theorem create_publishers_warnings (rqi : String → Bool) (p : Params)
    (info : SensorInfo) :
    (create_publishers rqi p info).config_warnings
      = (if check_token (parse_tokens p.proc_mask '|') "PCL" then
           if rqi p.point_type && info.udp_profile_rng15_rfl8_nir8 then
             [ConfigWarning.pointTypeIncompatible p.point_type]
           else []
         else [])
        ++ (if check_token (parse_tokens p.proc_mask '|') "SCAN" then
             if scan_ring_clamp p.scan_ring (info.beams_count : Int) = p.scan_ring
             then []
             else [ConfigWarning.scanRingClamped (info.beams_count : Int)
                     (scan_ring_clamp p.scan_ring (info.beams_count : Int))]
           else []) := rfl

/-- C2: for the processor mask "IMU|PCL" the IMU handler is constructed and
the only spatial processor pushed is the point cloud one: no laser scan or
image processor exists (no scan publishers, no image publishers), and no lidar
packet dispatch ever invokes a laser scan or image processor. -/
theorem proc_mask_imu_pcl_selection (rqi : String → Bool) (p : Params)
    (info : SensorInfo) (hmask : p.proc_mask = "IMU|PCL") :
    ((create_publishers rqi p info).imu_handler_offset_ns).isSome = true ∧
    (create_publishers rqi p info).processors = [ProcKind.pcl] ∧
    (create_publishers rqi p info).scan_pubs_count = 0 ∧
    (create_publishers rqi p info).image_pubs = [] ∧
    (create_publishers rqi p info).scan_ring_used = none ∧
    (∀ pkt e,
      e ∈ dispatch_lidar_packet (create_publishers rqi p info).processors pkt →
        e.1 = ProcKind.pcl) := by
  have ht : parse_tokens p.proc_mask '|' = ["IMU", "PCL"] := by
    rw [hmask]; decide
  have himu : check_token (parse_tokens p.proc_mask '|') "IMU" = true := by
    rw [ht]; decide
  have hpcl : check_token (parse_tokens p.proc_mask '|') "PCL" = true := by
    rw [ht]; decide
  have hscan : check_token (parse_tokens p.proc_mask '|') "SCAN" = false := by
    rw [ht]; decide
  have himg : check_token (parse_tokens p.proc_mask '|') "IMG" = false := by
    rw [ht]; decide
  have hprocs : (create_publishers rqi p info).processors = [ProcKind.pcl] := by
    simp [create_publishers_processors, hpcl, hscan, himg]
  refine ⟨?_, hprocs, ?_, ?_, ?_, ?_⟩
  · simp [create_publishers_imu_offset, himu]
  · simp [create_publishers_scan_pubs, hscan]
  · simp [create_publishers_image_pubs, himg]
  · simp [create_publishers_scan_ring, hscan]
  · intro pkt e he
    rw [hprocs] at he
    simp only [dispatch_lidar_packet, List.map_cons, List.map_nil,
      List.mem_singleton] at he
    rw [he]

/-- C2 witness: the selection theorem applied to a concrete configuration with
mask "IMU|PCL" on a dual-return sensor. -/
theorem proc_mask_imu_pcl_selection_witness :
    (create_publishers (fun _ => false) ({ proc_mask := "IMU|PCL" } : Params)
        { num_returns := 2, beams_count := 64,
          udp_profile_rng15_rfl8_nir8 := false }).processors = [ProcKind.pcl] :=
  (proc_mask_imu_pcl_selection (fun _ => false) _ _ rfl).2.1

/-- C4: each enabled point cloud / laser scan variant constructs exactly
`num_returns` publishers, and a forwarded frame carrying one sub-message per
return publishes to exactly the sink indices `0 .. num_returns - 1`, one
publish per return index. -/
theorem return_indexed_sinks {α : Type} (rqi : String → Bool) (p : Params)
    (info : SensorInfo) (dc : PointCloudOutput α) (ds : LaserScanOutput α)
    (hdc : dc.pc_msgs.length = info.num_returns)
    (hds : ds.scan_msgs.length = info.num_returns)
    (hct : p.min_valid_columns_in_scan ≤ dc.num_valid_columns)
    (hst : p.min_valid_columns_in_scan ≤ ds.num_valid_columns) :
    (check_token (parse_tokens p.proc_mask '|') "PCL" = true →
      (create_publishers rqi p info).lidar_pubs_count = info.num_returns) ∧
    (check_token (parse_tokens p.proc_mask '|') "SCAN" = true →
      (create_publishers rqi p info).scan_pubs_count = info.num_returns) ∧
    (point_cloud_output_callback p.min_valid_columns_in_scan dc).filterMap
        cloudPublishIdx = List.range info.num_returns ∧
    (laser_scan_output_callback p.min_valid_columns_in_scan ds).filterMap
        scanPublishIdx = List.range info.num_returns := by
  refine ⟨?_, ?_, ?_, ?_⟩
  · intro h; simp [create_publishers_lidar_pubs, h]
  · intro h; simp [create_publishers_scan_pubs, h]
  · rw [point_cloud_callback_pass _ dc hct, filterMap_cloudIdx_map,
      List.enum_map_fst, hdc]
  · rw [laser_scan_callback_pass _ ds hst, filterMap_scanIdx_map,
      List.enum_map_fst, hds]

/-- C4 witness: on a dual-return sensor with the default threshold, a cloud
frame with two sub-messages is published exactly to sink indices 0 and 1. -/
theorem return_indexed_sinks_witness :
    (point_cloud_output_callback 0
        ({ num_valid_columns := 4, pc_msgs := [10, 11] } : PointCloudOutput Nat)).filterMap
        cloudPublishIdx = List.range 2 := by
  have h := return_indexed_sinks (fun _ => false) {}
    { num_returns := 2, beams_count := 64, udp_profile_rng15_rfl8_nir8 := false }
    (⟨4, [10, 11]⟩ : PointCloudOutput Nat)
    (⟨4, [12, 13]⟩ : LaserScanOutput Nat) rfl rfl (by decide) (by decide)
  exact h.2.2.1

/-- C5: the configured scan ring is clamped into `[0, beams_count - 1]` —
requesting -1 yields ring 0 and requesting `beams_count` yields ring
`beams_count - 1` — and the clamping warning is logged exactly once when the
clamp changed the value, never otherwise. -/
theorem scan_ring_clamping (rqi : String → Bool) (p : Params)
    (info : SensorInfo) (hb : 1 ≤ info.beams_count)
    (hscan : check_token (parse_tokens p.proc_mask '|') "SCAN" = true) :
    (p.scan_ring = -1 →
      (create_publishers rqi p info).scan_ring_used = some 0) ∧
    (p.scan_ring = (info.beams_count : Int) →
      (create_publishers rqi p info).scan_ring_used
        = some ((info.beams_count : Int) - 1)) ∧
    (∀ r, (create_publishers rqi p info).scan_ring_used = some r →
      0 ≤ r ∧ r ≤ (info.beams_count : Int) - 1) ∧
    ((create_publishers rqi p info).config_warnings.countP
        (fun w => w.isScanRingClamped)
      = if (create_publishers rqi p info).scan_ring_used = some p.scan_ring
        then 0 else 1) := by
  have hs : (create_publishers rqi p info).scan_ring_used
      = some (scan_ring_clamp p.scan_ring (info.beams_count : Int)) := by
    simp [create_publishers_scan_ring, hscan]
  refine ⟨?_, ?_, ?_, ?_⟩
  · intro h
    rw [hs, h]
    have : scan_ring_clamp (-1) (info.beams_count : Int) = 0 := by
      simp only [scan_ring_clamp]; omega
    rw [this]
  · intro h
    rw [hs, h]
    have : scan_ring_clamp (info.beams_count : Int) (info.beams_count : Int)
        = (info.beams_count : Int) - 1 := by
      simp only [scan_ring_clamp]; omega
    rw [this]
  · intro r hr
    rw [hs] at hr
    have hr2 : scan_ring_clamp p.scan_ring (info.beams_count : Int) = r :=
      Option.some.inj hr
    simp only [scan_ring_clamp] at hr2
    omega
  · rw [create_publishers_warnings, List.countP_append, hs]
    have h0 : (if check_token (parse_tokens p.proc_mask '|') "PCL" then
          if rqi p.point_type && info.udp_profile_rng15_rfl8_nir8 then
            [ConfigWarning.pointTypeIncompatible p.point_type]
          else []
        else []).countP (fun w => w.isScanRingClamped) = 0 := by
      split
      · split
        · simp [ConfigWarning.isScanRingClamped]
        · rfl
      · rfl
    rw [h0, hscan]
    simp only [if_true, Option.some.injEq]
    split
    · simp
    · simp [ConfigWarning.isScanRingClamped]

/-- C5 witness: requesting ring -1 with mask "SCAN" on a 64-beam sensor yields
ring 0 and exactly one clamping warning. -/
theorem scan_ring_clamping_witness :
    (create_publishers (fun _ => false)
        ({ proc_mask := "SCAN", scan_ring := -1 } : Params)
        { num_returns := 1, beams_count := 64,
          udp_profile_rng15_rfl8_nir8 := false }).scan_ring_used = some 0 :=
  (scan_ring_clamping (fun _ => false) _ _ (by decide) (by decide)).1 rfl

/-- C6: the channel-field-to-topic map depends only on the return count — the
single-return map has exactly 4 entries and the dual-return map exactly 7 —
and with the image variant enabled one image publisher is created per entry
of the selected map. -/
theorem image_topic_map_by_return_count (rqi : String → Bool) (p : Params)
    (info : SensorInfo)
    (himg : check_token (parse_tokens p.proc_mask '|') "IMG" = true) :
    channel_field_topic_map_1.length = 4 ∧
    channel_field_topic_map_2.length = 7 ∧
    (create_publishers rqi p info).image_pubs
      = (if info.num_returns = 1 then channel_field_topic_map_1
         else channel_field_topic_map_2) ∧
    (info.num_returns = 1 →
      (create_publishers rqi p info).image_pubs.length = 4) ∧
    (info.num_returns = 2 →
      (create_publishers rqi p info).image_pubs.length = 7) := by
  have h : (create_publishers rqi p info).image_pubs
      = (if info.num_returns = 1 then channel_field_topic_map_1
         else channel_field_topic_map_2) := by
    simp [create_publishers_image_pubs, himg]
  refine ⟨rfl, rfl, h, ?_, ?_⟩
  · intro h1; rw [h, if_pos h1]; rfl
  · intro h2; rw [h, if_neg (by omega)]; rfl

/-- C6 witness: with mask "IMG" on a dual-return sensor exactly 7 image
publishers are created. -/
theorem image_topic_map_by_return_count_witness :
    (create_publishers (fun _ => false) ({ proc_mask := "IMG" } : Params)
        { num_returns := 2, beams_count := 64,
          udp_profile_rng15_rfl8_nir8 := false }).image_pubs.length = 7 :=
  (image_topic_map_by_return_count (fun _ => false) _ _ (by decide)).2.2.2.2 rfl

/-- C7: the UTC/TAI offset parameter is given in seconds and converted to
nanoseconds by multiplying by 10^9 and truncating toward zero; for an offset
of 37 s the same value 37000000000 ns is handed to the IMU handler and to the
lidar handler, and TAI-corrected timestamping subtracts exactly
37000000000 ns from the raw hardware timestamp. -/
theorem utc_tai_offset_conversion (rqi : String → Bool) (p : Params)
    (info : SensorInfo) (host raw : Int)
    (hoff : p.ptp_utc_tai_offset = 37) :
    (∀ n, (create_publishers rqi p info).imu_handler_offset_ns = some n →
      n = 37000000000) ∧
    (∀ n, (create_publishers rqi p info).lidar_handler_offset_ns = some n →
      n = 37000000000) ∧
    (∀ n m, (create_publishers rqi p info).imu_handler_offset_ns = some n →
      (create_publishers rqi p info).lidar_handler_offset_ns = some m →
        n = m) ∧
    correct_timestamp TimestampMode.taiCorrected host raw 37000000000
      = raw - 37000000000 := by
  have hval : truncQ (p.ptp_utc_tai_offset * 1000000000) = 37000000000 := by
    rw [hoff]
    norm_num [truncQ]
  have himu : ∀ n,
      (create_publishers rqi p info).imu_handler_offset_ns = some n →
        n = 37000000000 := by
    intro n hn
    rw [create_publishers_imu_offset, hval] at hn
    split at hn
    · exact (Option.some.inj hn).symm
    · exact absurd hn (by simp)
  have hlid : ∀ n,
      (create_publishers rqi p info).lidar_handler_offset_ns = some n →
        n = 37000000000 := by
    intro n hn
    rw [create_publishers_lidar_offset, hval] at hn
    split at hn
    · exact (Option.some.inj hn).symm
    · exact absurd hn (by simp)
  refine ⟨himu, hlid, ?_, rfl⟩
  intro n m hn hm
  rw [himu n hn, hlid m hm]

/-- C7 witness: the conversion theorem at a concrete configuration with
offset 37 s and a concrete raw timestamp. -/
theorem utc_tai_offset_conversion_witness :
    correct_timestamp TimestampMode.taiCorrected 0 100000000000 37000000000
      = 100000000000 - 37000000000 :=
  (utc_tai_offset_conversion (fun _ => false)
    ({ ptp_utc_tai_offset := 37 } : Params)
    { num_returns := 1, beams_count := 64, udp_profile_rng15_rfl8_nir8 := false }
    0 100000000000 rfl).2.2.2

/-- C8 counterexample: at threshold 5, a laser scan frame and an image frame
with only 3 valid columns are dropped, yet their callbacks emit no event at
all — in particular no warning carrying the observed and expected column
counts — refuting the claim that every below-threshold drop is reported. -/
theorem drop_warning_counterexample :
    laser_scan_output_callback 5
        ({ num_valid_columns := 3, scan_msgs := [0] } : LaserScanOutput Nat)
      = [] ∧
    image_output_callback 5
        ({ num_valid_columns := 3,
           image_msgs := [(ChanField.RANGE, 0)] } : ImageOutput Nat)
      = [] := by
  constructor <;> rfl

/-- C8 (amended): only the point cloud drop path reports a warning — carrying
the observed and the expected column counts — while below-threshold laser
scan and image frames are dropped silently, producing no event. -/
theorem drop_warning_point_cloud_only {α : Type} (t : Int)
    (dc : PointCloudOutput α) (ds : LaserScanOutput α) (di : ImageOutput α) :
    (dc.num_valid_columns < t →
      point_cloud_output_callback t dc
        = [Event.warnIncompleteCloud dc.num_valid_columns t]) ∧
    (ds.num_valid_columns < t → laser_scan_output_callback t ds = []) ∧
    (di.num_valid_columns < t → image_output_callback t di = []) := by
  refine ⟨?_, ?_, ?_⟩ <;> intro h <;>
    simp only [point_cloud_output_callback, laser_scan_output_callback,
      image_output_callback, if_pos h]

/-- C8 (amended) witness: a concrete dropped cloud frame yields exactly the
warning with observed count 3 and expected count 5. -/
theorem drop_warning_point_cloud_only_witness :
    point_cloud_output_callback 5
        ({ num_valid_columns := 3, pc_msgs := [1] } : PointCloudOutput Nat)
      = [Event.warnIncompleteCloud 3 5] :=
  (drop_warning_point_cloud_only 5 ⟨3, [1]⟩ (⟨0, []⟩ : LaserScanOutput Nat)
    (⟨0, []⟩ : ImageOutput Nat)).1 (by decide)

end OusterRos
